import Mathlib

/-!
Verification of the Hack-A-New-Year higher-education analytics system.

The repository ships a Next.js dashboard (frontend sources under
src/cgi-analytics-2026/frontend and the unnamed component files); the
analytical backend (data normalizer, risk scorer, allocation optimizer,
strategy comparator) is consumed through a request/response contract and its
implementation is not part of these sources.  Frontend functions are embedded
directly from the TypeScript; the absent backend operations are modelled from
the design document, each such definition marked "Modelled from the spec".
Numbers are embedded as rationals; JavaScript numeric literals are read
exactly (0.87 becomes 87/100).
-/

namespace HackNY

/-! ## Embedded frontend code -/

/-- Return type of getRiskLabel in src/cgi-analytics-2026/frontend/src/lib/api.ts
(the CSS class field is renamed cls because class is a Lean keyword). -/
structure RiskLabel where
  label : String
  color : String
  cls : String
deriving Repr, DecidableEq

/-- getRiskLabel from src/cgi-analytics-2026/frontend/src/lib/api.ts lines
163-169: cascaded score ≥ 80 / 60 / 40 / 20 tests. -/
def getRiskLabel (score : ℚ) : RiskLabel :=
  if 80 ≤ score then ⟨"Critical", "#E31937", "critical"⟩
  else if 60 ≤ score then ⟨"High", "#ff6b35", "high"⟩
  else if 40 ≤ score then ⟨"Medium", "#ffc107", "medium"⟩
  else if 20 ≤ score then ⟨"Low", "#005288", "low"⟩
  else ⟨"Very Low", "#28a745", "very-low"⟩

/-- counts.reduce((a, b) => a + b, 0) in RiskDistribution.tsx line 34. -/
def riskTotal (counts : List ℕ) : ℕ :=
  counts.foldl (· + ·) 0

/-- (counts[3] || 0) + (counts[4] || 0) in RiskDistribution.tsx line 35: an
absent entry (undefined, hence falsy) contributes 0. -/
def highRiskCount (counts : List ℕ) : ℕ :=
  counts.getD 3 0 + counts.getD 4 0

/-- highRiskPercent in RiskDistribution.tsx line 36:
total > 0 ? ((highRiskCount / total) * 100).toFixed(1) : 0.  The numeric
value before display formatting is modelled. -/
def highRiskPercent (counts : List ℕ) : ℚ :=
  if 0 < riskTotal counts then
    ((highRiskCount counts : ℚ) / (riskTotal counts : ℚ)) * 100
  else 0

/-- One row of the completionGapData array consumed by EvidenceSection
(src/unnamed/part_001); only gap_pct is read by the equityEngines memo. -/
structure CompletionGapInstitution where
  name : String
  gap_pct : ℚ
  pell_rate : Option ℚ
  nopell_rate : Option ℚ
  student_size : Option ℚ
deriving Repr, DecidableEq

/-- Descending order on gap_pct, the comparator (a, b) => b.gap_pct - a.gap_pct
of EvidenceSection line 268. -/
def gapDesc (a b : CompletionGapInstitution) : Prop :=
  b.gap_pct ≤ a.gap_pct

instance : DecidableRel gapDesc := fun a b =>
  inferInstanceAs (Decidable (b.gap_pct ≤ a.gap_pct))

instance : IsTotal CompletionGapInstitution gapDesc :=
  ⟨fun a b => le_total b.gap_pct a.gap_pct⟩

instance : IsTrans CompletionGapInstitution gapDesc :=
  ⟨fun _ _ _ hab hbc => le_trans hbc hab⟩

/-- equityEngines from src/unnamed/part_001 lines 264-270:
completionGapData.filter(d => d.gap_pct >= 0).sort((a, b) => b.gap_pct -
a.gap_pct).slice(0, 10).  The stable descending sort is embedded as an
insertion sort by gapDesc. -/
def equityEngines (completionGapData : List CompletionGapInstitution) :
    List CompletionGapInstitution :=
  ((completionGapData.filter (fun d => 0 ≤ d.gap_pct)).insertionSort gapDesc).take 10

/-- The min / max / step props of RangeSlider
(src/cgi-analytics-2026/frontend/src/components/ui/RangeSlider.tsx). -/
structure SliderProps where
  min : ℚ
  max : ℚ
  step : ℚ
deriving Repr, DecidableEq

/-- handleMinSlider (RangeSlider.tsx lines 40-43): the raw slider value v is
capped at value[1] - step and emitted with the unchanged upper endpoint. -/
def handleMinSlider (p : SliderProps) (value : ℚ × ℚ) (v : ℚ) : ℚ × ℚ :=
  (Min.min v (value.2 - p.step), value.2)

/-- handleMaxSlider (RangeSlider.tsx lines 45-48). -/
def handleMaxSlider (p : SliderProps) (value : ℚ × ℚ) (v : ℚ) : ℚ × ℚ :=
  (value.1, Max.max v (value.1 + p.step))

/-- parseInt(text) || fallback (RangeSlider.tsx lines 59 and 66): a failed
parse (NaN) and a parsed 0 are both falsy in JavaScript, so both fall back. -/
def parsedOr (parsed : Option ℚ) (fallback : ℚ) : ℚ :=
  match parsed with
  | none => fallback
  | some v => if v = 0 then fallback else v

/-- commitMinInput (RangeSlider.tsx lines 58-63):
newMin = Math.max(min, Math.min(parseInt(localMin) || min, value[1] - step)). -/
def commitMinInput (p : SliderProps) (value : ℚ × ℚ) (parsed : Option ℚ) : ℚ × ℚ :=
  (Max.max p.min (Min.min (parsedOr parsed p.min) (value.2 - p.step)), value.2)

/-- commitMaxInput (RangeSlider.tsx lines 65-70):
newMax = Math.min(max, Math.max(parseInt(localMax) || max, value[0] + step)). -/
def commitMaxInput (p : SliderProps) (value : ℚ × ℚ) (parsed : Option ℚ) : ℚ × ℚ :=
  (value.1, Min.min p.max (Max.max (parsedOr parsed p.max) (value.1 + p.step)))

/-- One element of the optional allocations array of OptimizationResult
(src/cgi-analytics-2026/frontend/src/lib/api.ts lines 64-77). -/
structure AllocationEntry where
  school_id : Option ℕ
  name : String
  state : Option String
  investment : ℚ
  student_size : Option ℚ
  base_retention : Option ℚ
  projected_retention : Option ℚ
  retention_improvement : Option ℚ
  risk_index : Option ℚ
  pell_rate : Option ℚ
deriving Repr, DecidableEq

/-- OptimizationResult from src/cgi-analytics-2026/frontend/src/lib/api.ts
lines 51-78; fields marked optional in the TypeScript interface are Options. -/
structure OptimizationResult where
  status : String
  total_budget : ℚ
  total_allocated : ℚ
  budget_utilization : ℚ
  pell_allocation : ℚ
  pell_percentage : ℚ
  schools_funded : Option ℕ
  students_impacted : Option ℕ
  baseline_retained : Option ℚ
  projected_retained : Option ℚ
  additional_retained : Option ℚ
  allocations : Option (List AllocationEntry)
deriving Repr, DecidableEq

/-- The demo OptimizationResult built in the catch branch of handleOptimize
(src/cgi-analytics-2026/frontend/src/app/page.tsx lines 105-118). -/
def demoOptimizationResult (budget pell : ℚ) : OptimizationResult where
  status := "Optimal"
  total_budget := budget
  total_allocated := budget * (87 / 100)
  budget_utilization := 87 / 100
  pell_allocation := budget * (87 / 100)
  pell_percentage := pell
  schools_funded := some 12
  students_impacted := some 4500
  baseline_retained := some (65 / 100)
  projected_retained := some (72 / 100)
  additional_retained := some 315
  allocations := some []

/-- handleOptimize (page.tsx lines 97-122) as a function of the request
outcome: a fulfilled runOptimization call (some r) stores r, a rejected one
(none, the thrown error) is caught and the demo result is stored instead.
The sat argument is forwarded to the request and unused by the demo branch. -/
def handleOptimize (response : Option OptimizationResult)
    (budget sat pell : ℚ) : OptimizationResult :=
  match response with
  | some r => r
  | none =>
    let _ := sat
    demoOptimizationResult budget pell

/-! ## Backend core modelled from the spec -/

/-- Modelled from the spec: AllocationCandidate (spec section 3) for the
backend Allocation Optimizer, which is absent from the frontend sources —
baseline metric, expected lift with a diminishing-returns scale, enrollment
and Pell share for tie-breaks and the equity bucket, and a resolved
eligibility flag. -/
structure AllocationCandidate where
  id : ℕ
  baseline : ℚ
  lift : ℚ
  scale : ℚ
  enrollment : ℚ
  pellShare : ℚ
  valueAdd : ℚ
  eligible : Bool
deriving Repr, DecidableEq

/-- Modelled from the spec: optimizer constraint configuration (spec section
4.4) — equity floor in dollars reserved for candidates at or above the Pell
dependency threshold, the greedy increment, and the iteration cap. -/
structure OptConfig where
  equityFloor : ℚ
  pellThreshold : ℚ
  increment : ℚ
  maxIters : ℕ
deriving Repr, DecidableEq

/-- Modelled from the spec: the ConstraintInfeasible failure of the error
taxonomy (spec section 7), carrying the offending constraint name. -/
inductive OptError where
  | constraintInfeasible : String → OptError
deriving Repr, DecidableEq

/-- Modelled from the spec: AllocationResult (spec section 3) of one backend
optimizer run. -/
structure AllocationResult where
  total_budget : ℚ
  total_allocated : ℚ
  budget_utilization : ℚ
  allocations : List (ℕ × ℚ)
  baseline_outcome : ℚ
  projected_outcome : ℚ
  status : String
deriving Repr, DecidableEq

/-- Modelled from the spec: marginal return per dollar of a candidate at
allocation a, a rational diminishing-returns curve (spec section 4.4 leaves
the curve an implementation choice subject to non-increasing marginals). -/
def marginalReturn (c : AllocationCandidate) (a : ℚ) : ℚ :=
  c.lift / (1 + c.scale + a)

/-- Modelled from the spec: improvement_i(x), the projected metric delta of
candidate c after investing a dollars; concave with improvement 0 at 0. -/
def improvement (c : AllocationCandidate) (a : ℚ) : ℚ :=
  c.lift * a / (1 + c.scale + a)

/-- Modelled from the spec: the tie-break rule of section 4.4 — higher
marginal return first, then larger enrollment, then lower identifier. -/
def betterChoice (x y : AllocationCandidate × ℚ) : Bool :=
  decide (marginalReturn y.1 y.2 < marginalReturn x.1 x.2) ||
    (decide (marginalReturn y.1 y.2 = marginalReturn x.1 x.2) &&
      (decide (y.1.enrollment < x.1.enrollment) ||
        (decide (y.1.enrollment = x.1.enrollment) && decide (x.1.id < y.1.id))))

/-- Modelled from the spec: choose the best entry of an indexed candidate
list under betterChoice. -/
def pickBest : List (ℕ × (AllocationCandidate × ℚ)) →
    Option (ℕ × (AllocationCandidate × ℚ))
  | [] => none
  | x :: xs =>
    match pickBest xs with
    | none => some x
    | some y => if betterChoice x.2 y.2 then some x else some y

/-- Modelled from the spec: index of the eligible-by-marginal-return best
candidate, skipping candidates whose marginal return is not positive (the
marginal-return floor of the water-filling loop, spec section 4.4). -/
def bestIndex (allocs : List (AllocationCandidate × ℚ)) : Option ℕ :=
  match pickBest ((allocs.enum).filter
      (fun x => decide (0 < marginalReturn x.2.1 x.2.2))) with
  | none => none
  | some x => some x.1

/-- Modelled from the spec: add amount to the allocation at position i. -/
def bump (allocs : List (AllocationCandidate × ℚ)) (i : ℕ) (amount : ℚ) :
    List (AllocationCandidate × ℚ) :=
  (allocs.enum).map (fun x => if x.1 = i then (x.2.1, x.2.2 + amount) else x.2)

/-- Modelled from the spec: the water-filling greedy loop (spec section 4.4):
while at least one increment of budget remains and some candidate has positive
marginal return, commit one increment to the best candidate; fuel bounds the
iterations (the iteration cap of section 5).  Returns the allocation table and
the amount spent. -/
def greedyLoop (cfg : OptConfig) :
    ℕ → List (AllocationCandidate × ℚ) → ℚ → ℚ →
    List (AllocationCandidate × ℚ) × ℚ
  | 0, allocs, _, spent => (allocs, spent)
  | fuel + 1, allocs, remaining, spent =>
    if cfg.increment ≤ remaining ∧ 0 < cfg.increment then
      match bestIndex allocs with
      | none => (allocs, spent)
      | some i =>
        greedyLoop cfg fuel (bump allocs i cfg.increment)
          (remaining - cfg.increment) (spent + cfg.increment)
    else (allocs, spent)

/-- Modelled from the spec: phase-1 allocation carried over into the phase-2
table (reserved-bucket institutions also compete for general budget). -/
def carryOver (phase1 : List (AllocationCandidate × ℚ))
    (c : AllocationCandidate) : AllocationCandidate × ℚ :=
  (c, ((phase1.find? (fun x => x.1.id = c.id)).map (·.2)).getD 0)

/-- Modelled from the spec: the eligibility filter preceding optimization
(spec section 4.4) — ineligible candidates are excluded entirely. -/
def eligibleCandidates (cands : List AllocationCandidate) :
    List AllocationCandidate :=
  cands.filter (·.eligible)

/-- Modelled from the spec: phase 1 of the optimizer — the equity floor is
greedily reserved among eligible candidates at or above the Pell dependency
threshold before general allocation begins. -/
def pellPhase (cands : List AllocationCandidate) (cfg : OptConfig) :
    List (AllocationCandidate × ℚ) × ℚ :=
  greedyLoop cfg cfg.maxIters
    (((eligibleCandidates cands).filter
        (fun c => decide (cfg.pellThreshold ≤ c.pellShare))).map
      (fun c => (c, (0 : ℚ))))
    cfg.equityFloor 0

/-- Modelled from the spec: phase 2 of the optimizer — the remaining budget is
water-filled over all eligible candidates, reserved-bucket institutions
competing again starting from their phase-1 amounts. -/
def generalPhase (cands : List AllocationCandidate) (budget : ℚ)
    (cfg : OptConfig) : List (AllocationCandidate × ℚ) × ℚ :=
  greedyLoop cfg cfg.maxIters
    ((eligibleCandidates cands).map (carryOver (pellPhase cands cfg).1))
    (budget - (pellPhase cands cfg).2) (pellPhase cands cfg).2

/-- Modelled from the spec: AllocationResult assembly of a feasible optimizer
run — total allocated, utilization ratio, per-institution amounts and the
aggregate baseline versus projected outcome. -/
def runOptimizer (cands : List AllocationCandidate) (budget : ℚ)
    (cfg : OptConfig) : AllocationResult where
  total_budget := budget
  total_allocated := (generalPhase cands budget cfg).2
  budget_utilization := (generalPhase cands budget cfg).2 / budget
  allocations := (generalPhase cands budget cfg).1.map (fun x => (x.1.id, x.2))
  baseline_outcome :=
    ((generalPhase cands budget cfg).1.map (fun x => x.1.baseline)).sum
  projected_outcome :=
    ((generalPhase cands budget cfg).1.map
      (fun x => x.1.baseline + improvement x.1 x.2)).sum
  status := "Optimal"

/-- Modelled from the spec: optimize(candidates, budget, constraints) of
section 4.4, absent from the frontend sources.  An equity floor exceeding the
budget fails with ConstraintInfeasible naming the offending constraint;
otherwise the two-phase water-filling run produces the result. -/
def optimize (cands : List AllocationCandidate) (budget : ℚ) (cfg : OptConfig) :
    Except OptError AllocationResult :=
  if budget < cfg.equityFloor then
    .error (.constraintInfeasible "equity_floor")
  else
    .ok (runOptimizer cands budget cfg)

/-- Modelled from the spec: NormalizedInstitution fields consumed by the Risk
Scorer (spec section 4.2), absent from the frontend sources; a missing
sub-metric is none. -/
structure NormalizedInstitution where
  id : ℕ
  retention_rate : Option ℚ
  completion_rate : Option ℚ
  pell_share : Option ℚ
  valueAdd : Option ℚ
deriving Repr, DecidableEq

/-- Modelled from the spec: scorer weights W1-W4 (spec section 4.2). -/
structure ScorerWeights where
  w1 : ℚ
  w2 : ℚ
  w3 : ℚ
  w4 : ℚ
deriving Repr, DecidableEq

/-- Modelled from the spec: the documented default deployment weights
W1 = 0.35, W2 = 0.30, W3 = 0.20, W4 = 0.15. -/
def defaultWeights : ScorerWeights :=
  ⟨35 / 100, 30 / 100, 20 / 100, 15 / 100⟩

/-- Modelled from the spec: financial fragility, the inverse of the value-add
measure scaled to and clipped into [0, 100] (spec section 4.2). -/
def fragility (v : ℚ) : ℚ :=
  Min.min 100 (Max.max 0 (100 / v))

/-- Modelled from the spec: the (weight, sub-indicator) pairs available for an
institution; missing sub-indicators are excluded rather than defaulted. -/
def availableIndicators (w : ScorerWeights) (inst : NormalizedInstitution) :
    List (ℚ × ℚ) :=
  (match inst.retention_rate with
    | some r => [(w.w1, (1 - r) * 100)]
    | none => []) ++
  (match inst.completion_rate with
    | some c => [(w.w2, (1 - c) * 100)]
    | none => []) ++
  (match inst.pell_share with
    | some p => [(w.w3, p * 100)]
    | none => []) ++
  (match inst.valueAdd with
    | some v => [(w.w4, fragility v)]
    | none => [])

/-- Modelled from the spec: weighted average of (weight, value) pairs with the
weights renormalized to the listed subset; 0 when no weight is available. -/
def weightedAvg (l : List (ℚ × ℚ)) : ℚ :=
  if (l.map (·.1)).sum = 0 then 0
  else (l.map (fun x => x.1 * x.2)).sum / (l.map (·.1)).sum

/-- Modelled from the spec: the raw index — the weighted sum renormalized over
the available sub-indicators (spec section 4.2); with no available
sub-indicator the index is 0. -/
def rawIndex (w : ScorerWeights) (inst : NormalizedInstitution) : ℚ :=
  weightedAvg (availableIndicators w inst)

/-- Modelled from the spec: RiskScore (spec section 3) — the rounded integer
index and the severity bucket through the documented fixed thresholds. -/
structure RiskScore where
  index : ℤ
  bucket : String
deriving Repr, DecidableEq

/-- Modelled from the spec: score(inst) of section 4.2 under the default
deployment weights: round the renormalized weighted index to an integer and
bucket it with the threshold function getRiskLabel embedded from api.ts. -/
def score (inst : NormalizedInstitution) : RiskScore :=
  let idx := round (rawIndex defaultWeights inst)
  ⟨idx, (getRiskLabel (idx : ℚ)).label⟩

/-- Modelled from the spec: the three named allocation strategies of spec
section 4.4. -/
inductive StrategyName where
  | base
  | performance
  | retention_trigger
deriving Repr, DecidableEq

/-- Modelled from the spec: one row of the Strategy Comparator output
(spec section 4.5). -/
structure StrategySummary where
  strategy_name : String
  graduates : ℚ
  cost_per_graduate : ℚ
  schools_funded : ℕ
deriving Repr, DecidableEq

/-- Modelled from the spec: the performance strategy boosts lift by a bonus
multiplier for candidates whose value-add measure clears a threshold; the
other strategies leave the candidate pool unchanged (spec section 4.4). -/
def strategyCandidates (s : StrategyName) (cands : List AllocationCandidate) :
    List AllocationCandidate :=
  match s with
  | .performance =>
    cands.map (fun c =>
      if 2 ≤ c.valueAdd then { c with lift := c.lift * (6 / 5) } else c)
  | _ => cands

/-- Modelled from the spec: the retention_trigger strategy reserves one tenth
of the budget before the smooth optimizer runs; base and performance use the
whole budget (spec section 4.4). -/
def strategyBudget (s : StrategyName) (budget : ℚ) : ℚ :=
  match s with
  | .retention_trigger => budget * (9 / 10)
  | _ => budget

/-- Modelled from the spec: display name of a strategy. -/
def strategyLabel : StrategyName → String
  | .base => "base"
  | .performance => "performance"
  | .retention_trigger => "retention_trigger"

/-- Modelled from the spec: fold an AllocationResult of one strategy run into
a comparable summary row (spec section 4.5); with no projected graduates the
cost per graduate is reported as 0. -/
def summarize (s : StrategyName) (r : AllocationResult) : StrategySummary where
  strategy_name := strategyLabel s
  graduates := r.projected_outcome
  cost_per_graduate :=
    if r.projected_outcome = 0 then 0 else r.total_allocated / r.projected_outcome
  schools_funded := (r.allocations.filter (fun a => decide (0 < a.2))).length

/-- Modelled from the spec: one strategy run of the comparator — optimize the
strategy-adjusted pool under the strategy budget; a structured optimizer
failure yields a zero summary row for that strategy. -/
def runStrategy (s : StrategyName) (cands : List AllocationCandidate)
    (budget : ℚ) (cfg : OptConfig) : StrategySummary :=
  match optimize (strategyCandidates s cands) (strategyBudget s budget) cfg with
  | .ok r => summarize s r
  | .error _ => ⟨strategyLabel s, 0, 0, 0⟩

/-- Modelled from the spec: compare(candidates, budget) of section 4.5 — run
the optimizer once per named strategy over the identical candidate pool and
budget and collect one summary row per strategy. -/
def compare (cands : List AllocationCandidate) (budget : ℚ) (cfg : OptConfig) :
    List StrategySummary :=
  [StrategyName.base, StrategyName.performance, StrategyName.retention_trigger].map
    (fun s => runStrategy s cands budget cfg)

/-- Modelled from the spec: two sequential invocations of compare with the
identical candidate pool, budget and configuration, as a determinism harness
(spec sections 4.5 and 5: runs share no mutable state). -/
def compareTwice (cands : List AllocationCandidate) (budget : ℚ)
    (cfg : OptConfig) : List StrategySummary × List StrategySummary :=
  (compare cands budget cfg, compare cands budget cfg)

/-! ## Theorems -/

/-- C4: for every risk index value, the severity bucket assigned by
getRiskLabel follows the fixed thresholds 20/40/60/80 — Critical for
score ≥ 80, High for 60 ≤ score < 80, Medium for 40 ≤ score < 60, Low for
20 ≤ score < 40, Very Low below 20, each boundary mapping to the higher
bucket. -/
theorem getRiskLabel_thresholds (s : ℚ) :
    ((getRiskLabel s).label = "Critical" ↔ 80 ≤ s) ∧
    ((getRiskLabel s).label = "High" ↔ 60 ≤ s ∧ s < 80) ∧
    ((getRiskLabel s).label = "Medium" ↔ 40 ≤ s ∧ s < 60) ∧
    ((getRiskLabel s).label = "Low" ↔ 20 ≤ s ∧ s < 40) ∧
    ((getRiskLabel s).label = "Very Low" ↔ s < 20) := by
  unfold getRiskLabel
  split_ifs with h1 h2 h3 h4 <;>
    refine ⟨?_, ?_, ?_, ?_, ?_⟩ <;> simp <;>
    first
      | linarith
      | (constructor <;> linarith)
      | (intro h; linarith)

theorem riskTotal_eq_sum (counts : List ℕ) : riskTotal counts = counts.sum := by
  simp [riskTotal, List.sum_eq_foldl]

/-- C10: the High/Critical share shown by RiskDistribution is total — with a
zero count total the displayed percentage is 0 (no division by zero), and
otherwise it equals (counts[3] + counts[4]) / total × 100 with absent
entries read as 0. -/
theorem riskDistribution_percent_safe (counts : List ℕ) :
    (counts.sum = 0 → highRiskPercent counts = 0) ∧
    (counts.sum ≠ 0 →
      highRiskPercent counts =
        ((counts.getD 3 0 + counts.getD 4 0 : ℕ) : ℚ) / (counts.sum : ℚ) * 100) := by
  constructor
  · intro h
    simp [highRiskPercent, riskTotal_eq_sum, h]
  · intro h
    simp only [highRiskPercent, riskTotal_eq_sum, highRiskCount]
    rw [if_pos (Nat.pos_of_ne_zero h)]

/-- Witness for C10 at the empty histogram and at the demo histogram of
page.tsx (counts 285/412/538/389/223, High + Critical = 612 of 1847). -/
theorem riskDistribution_percent_safe_witness :
    highRiskPercent [] = 0 ∧
    highRiskPercent [285, 412, 538, 389, 223] = 61200 / 1847 := by
  constructor
  · exact (riskDistribution_percent_safe []).1 rfl
  · have h := (riskDistribution_percent_safe [285, 412, 538, 389, 223]).2 (by decide)
    rw [h]
    norm_num

/-- C8: the Equity Engines list of EvidenceSection keeps only entries with
gap_pct ≥ 0, is sorted by gap_pct in non-increasing order, and has at most
10 entries. -/
theorem equityEngines_spec (completionGapData : List CompletionGapInstitution) :
    (∀ d ∈ equityEngines completionGapData, 0 ≤ d.gap_pct) ∧
    (equityEngines completionGapData).Sorted
      (fun a b => b.gap_pct ≤ a.gap_pct) ∧
    (equityEngines completionGapData).length ≤ 10 := by
  refine ⟨?_, ?_, ?_⟩
  · intro d hd
    have hmem : d ∈ (completionGapData.filter
        (fun d => 0 ≤ d.gap_pct)).insertionSort gapDesc :=
      List.mem_of_mem_take hd
    have hfil : d ∈ completionGapData.filter (fun d => 0 ≤ d.gap_pct) :=
      (List.perm_insertionSort gapDesc _).subset hmem
    simpa using (List.mem_filter.1 hfil).2
  · exact (List.sorted_insertionSort gapDesc _).sublist (List.take_sublist _ _)
  · exact List.length_take_le _ _

theorem greedyLoop_spent_le (cfg : OptConfig) :
    ∀ (fuel : ℕ) (allocs : List (AllocationCandidate × ℚ)) (remaining spent : ℚ),
      (greedyLoop cfg fuel allocs remaining spent).2 ≤
        spent + Max.max remaining 0 := by
  intro fuel
  induction fuel with
  | zero =>
    intro allocs remaining spent
    have := le_max_right remaining (0 : ℚ)
    simp only [greedyLoop]
    linarith
  | succ n ih =>
    intro allocs remaining spent
    simp only [greedyLoop]
    split_ifs with h
    · cases hbi : bestIndex allocs with
      | none =>
        have := le_max_right remaining (0 : ℚ)
        simp only [hbi]
        linarith
      | some i =>
        simp only [hbi]
        have hrec := ih (bump allocs i cfg.increment) (remaining - cfg.increment)
          (spent + cfg.increment)
        rw [max_eq_left (by linarith [h.1, h.2] : (0 : ℚ) ≤ remaining - cfg.increment)]
          at hrec
        rw [max_eq_left (by linarith [h.1, h.2] : (0 : ℚ) ≤ remaining)]
        linarith
    · have := le_max_right remaining (0 : ℚ)
      linarith

theorem pellPhase_spent_le (cands : List AllocationCandidate) (cfg : OptConfig)
    (budget : ℚ) (hb : 0 ≤ budget) (hfl : cfg.equityFloor ≤ budget) :
    (pellPhase cands cfg).2 ≤ budget := by
  unfold pellPhase
  have h := greedyLoop_spent_le cfg cfg.maxIters
    (((eligibleCandidates cands).filter
        (fun c => decide (cfg.pellThreshold ≤ c.pellShare))).map
      (fun c => (c, (0 : ℚ))))
    cfg.equityFloor 0
  rcases le_total cfg.equityFloor 0 with h0 | h0
  · rw [max_eq_right h0] at h
    linarith
  · rw [max_eq_left h0] at h
    linarith

theorem runOptimizer_total_le (cands : List AllocationCandidate) (budget : ℚ)
    (cfg : OptConfig) (hb : 0 ≤ budget) (hfl : cfg.equityFloor ≤ budget) :
    (runOptimizer cands budget cfg).total_allocated ≤ budget := by
  have hp := pellPhase_spent_le cands cfg budget hb hfl
  show (generalPhase cands budget cfg).2 ≤ budget
  unfold generalPhase
  have h := greedyLoop_spent_le cfg cfg.maxIters
    ((eligibleCandidates cands).map (carryOver (pellPhase cands cfg).1))
    (budget - (pellPhase cands cfg).2) (pellPhase cands cfg).2
  rw [max_eq_left (by linarith : (0 : ℚ) ≤ budget - (pellPhase cands cfg).2)] at h
  linarith

/-- C1 counterexample: the demo result handleOptimize constructs on a failed
request at budget -1000000 allocates -870000, which exceeds the (negative)
budget — the bound fails for a negative budget. -/
theorem allocation_within_budget_cex :
    ¬ ((handleOptimize none (-1000000) 1100 (2 / 5)).total_allocated ≤
        (handleOptimize none (-1000000) 1100 (2 / 5)).total_budget) := by
  norm_num [handleOptimize, demoOptimizationResult]

/-- C1 amended: for every nonnegative budget, every AllocationResult the
spec-modelled optimizer returns satisfies total_allocated ≤ total_budget, and
the demo result handleOptimize constructs obeys the same bound (every budget
the dashboard slider can request is positive). -/
theorem allocation_within_budget (cands : List AllocationCandidate)
    (budget sat pell : ℚ) (cfg : OptConfig) (r : AllocationResult)
    (hb : 0 ≤ budget) (hok : optimize cands budget cfg = .ok r) :
    r.total_allocated ≤ r.total_budget ∧
    (handleOptimize none budget sat pell).total_allocated ≤
      (handleOptimize none budget sat pell).total_budget := by
  constructor
  · unfold optimize at hok
    split_ifs at hok with hfl
    cases hok
    exact runOptimizer_total_le cands budget cfg hb (not_lt.1 hfl)
  · show budget * (87 / 100) ≤ budget
    linarith

/-- Witness for C1 at an empty candidate pool, budget 100, equity floor 0 and
the dashboard demo at budget 100. -/
theorem allocation_within_budget_witness :
    (0 : ℚ) ≤ 100 ∧
    optimize [] 100 ⟨0, 1 / 2, 10, 3⟩ = .ok (runOptimizer [] 100 ⟨0, 1 / 2, 10, 3⟩) ∧
    (runOptimizer [] 100 ⟨0, 1 / 2, 10, 3⟩).total_allocated ≤
      (runOptimizer [] 100 ⟨0, 1 / 2, 10, 3⟩).total_budget ∧
    (handleOptimize none 100 1100 (2 / 5)).total_allocated ≤
      (handleOptimize none 100 1100 (2 / 5)).total_budget := by
  have hok : optimize [] 100 ⟨0, 1 / 2, 10, 3⟩ =
      .ok (runOptimizer [] 100 ⟨0, 1 / 2, 10, 3⟩) := by
    unfold optimize
    norm_num
  have h := allocation_within_budget [] 100 1100 (2 / 5) ⟨0, 1 / 2, 10, 3⟩ _
    (by norm_num) hok
  exact ⟨by norm_num, hok, h.1, h.2⟩

/-- C2: an optimize request whose equity floor strictly exceeds the total
budget fails with the ConstraintInfeasible condition naming the equity floor,
rather than returning an allocation result (spec-modelled optimizer). -/
theorem optimize_infeasible_floor (cands : List AllocationCandidate)
    (budget : ℚ) (cfg : OptConfig) (h : budget < cfg.equityFloor) :
    optimize cands budget cfg = .error (.constraintInfeasible "equity_floor") := by
  unfold optimize
  rw [if_pos h]

/-- Witness for C2: budget 50 against equity floor 100. -/
theorem optimize_infeasible_floor_witness :
    (50 : ℚ) < 100 ∧
    optimize [] 50 ⟨100, 1 / 2, 10, 3⟩ =
      .error (.constraintInfeasible "equity_floor") :=
  ⟨by norm_num,
    optimize_infeasible_floor [] 50 ⟨100, 1 / 2, 10, 3⟩ (by norm_num)⟩

/-- C3 counterexample: a failing optimize request (rejected runOptimization
call, response none) at budget 5000000 is answered with a stored result whose
status is Optimal — a successful-looking AllocationResult in place of the
failure. -/
theorem optimize_failure_surfaced_cex :
    (handleOptimize none 5000000 1100 (2 / 5)).status = "Optimal" := rfl

/-- C3 amended: for every failing optimize request, the catch branch of
handleOptimize stores the demo result — which depends only on the requested
budget and Pell share, carries no failure information, and reports status
Optimal — instead of surfacing the failure. -/
theorem optimize_failure_surfaced (budget sat pell : ℚ) :
    handleOptimize none budget sat pell = demoOptimizationResult budget pell ∧
    (handleOptimize none budget sat pell).status = "Optimal" :=
  ⟨rfl, rfl⟩

/-- C6: for every positive total budget, budget_utilization equals
total_allocated / total_budget, both for every result of the spec-modelled
optimizer and for the result handleOptimize constructs for the dashboard. -/
theorem budget_utilization_ratio (cands : List AllocationCandidate)
    (budget sat pell : ℚ) (cfg : OptConfig) (r : AllocationResult)
    (hb : 0 < budget) (hok : optimize cands budget cfg = .ok r) :
    r.budget_utilization = r.total_allocated / r.total_budget ∧
    (handleOptimize none budget sat pell).budget_utilization =
      (handleOptimize none budget sat pell).total_allocated /
        (handleOptimize none budget sat pell).total_budget := by
  constructor
  · unfold optimize at hok
    split_ifs at hok with hfl
    cases hok
    rfl
  · show (87 / 100 : ℚ) = budget * (87 / 100) / budget
    rw [mul_comm, mul_div_assoc, div_self hb.ne', mul_one]

/-- Witness for C6 at budget 100, both for the spec-modelled optimizer run on
an empty pool and for the dashboard demo result. -/
theorem budget_utilization_ratio_witness :
    (0 : ℚ) < 100 ∧
    (runOptimizer [] 100 ⟨0, 1 / 2, 10, 3⟩).budget_utilization =
      (runOptimizer [] 100 ⟨0, 1 / 2, 10, 3⟩).total_allocated /
        (runOptimizer [] 100 ⟨0, 1 / 2, 10, 3⟩).total_budget ∧
    (handleOptimize none 100 1100 (2 / 5)).budget_utilization =
      (handleOptimize none 100 1100 (2 / 5)).total_allocated /
        (handleOptimize none 100 1100 (2 / 5)).total_budget := by
  have hok : optimize [] 100 ⟨0, 1 / 2, 10, 3⟩ =
      .ok (runOptimizer [] 100 ⟨0, 1 / 2, 10, 3⟩) := by
    unfold optimize
    norm_num
  have h := budget_utilization_ratio [] 100 1100 (2 / 5) ⟨0, 1 / 2, 10, 3⟩ _
    (by norm_num) hok
  exact ⟨by norm_num, h.1, h.2⟩

/-- C7: running compare twice with the identical candidate pool, budget and
configuration produces bit-identical summary lists — the spec-modelled
comparator is a pure function of its inputs with no state shared between the
two runs of the harness. -/
theorem compare_deterministic (cands : List AllocationCandidate) (budget : ℚ)
    (cfg : OptConfig) :
    (compareTwice cands budget cfg).1 = (compareTwice cands budget cfg).2 := rfl

/-- C9 counterexample: with min = 10, max = 100, step = 1 and current pair
(0, 5) — which does satisfy lo ≤ hi − step — commitMinInput with a failed
parse emits (10, 5), and 10 ≤ 5 − 1 fails: the stated hypothesis is too weak
when the current pair lies outside the [min, max] bounds. -/
theorem rangeSlider_invariant_cex :
    ((0 : ℚ) ≤ 5 - 1) ∧
    commitMinInput ⟨10, 100, 1⟩ (0, 5) none = (10, 5) ∧
    ¬ ((commitMinInput ⟨10, 100, 1⟩ (0, 5) none).1 ≤
        (commitMinInput ⟨10, 100, 1⟩ (0, 5) none).2 - 1) := by
  refine ⟨by norm_num, ?_, ?_⟩ <;> norm_num [commitMinInput, parsedOr]

/-- C9 amended: for a nonnegative step and a current pair inside the slider
bounds (min ≤ lo, lo ≤ hi − step, hi ≤ max), every pair emitted through
onChange by handleMinSlider, handleMaxSlider, commitMinInput or commitMaxInput
again satisfies the ordering invariant, and the commit handlers clamp the
edited endpoint into [min, max]. -/
theorem rangeSlider_handlers_preserve (p : SliderProps) (lo hi v : ℚ)
    (parsed : Option ℚ) (hstep : 0 ≤ p.step) (hmin : p.min ≤ lo)
    (hord : lo ≤ hi - p.step) (hmax : hi ≤ p.max) :
    ((handleMinSlider p (lo, hi) v).1 ≤
      (handleMinSlider p (lo, hi) v).2 - p.step) ∧
    ((handleMaxSlider p (lo, hi) v).1 ≤
      (handleMaxSlider p (lo, hi) v).2 - p.step) ∧
    ((commitMinInput p (lo, hi) parsed).1 ≤
      (commitMinInput p (lo, hi) parsed).2 - p.step) ∧
    ((commitMaxInput p (lo, hi) parsed).1 ≤
      (commitMaxInput p (lo, hi) parsed).2 - p.step) ∧
    (p.min ≤ (commitMinInput p (lo, hi) parsed).1 ∧
      (commitMinInput p (lo, hi) parsed).1 ≤ p.max) ∧
    (p.min ≤ (commitMaxInput p (lo, hi) parsed).2 ∧
      (commitMaxInput p (lo, hi) parsed).2 ≤ p.max) := by
  simp only [handleMinSlider, handleMaxSlider, commitMinInput, commitMaxInput]
  have h1 : hi - p.step ≤ p.max := by linarith
  have h2 : p.min ≤ p.max := by linarith
  refine ⟨min_le_right _ _, ?_, ?_, ?_, ⟨le_max_left _ _, ?_⟩,
    ⟨?_, min_le_left _ _⟩⟩
  · have := le_max_right v (lo + p.step)
    linarith
  · exact max_le (le_trans hmin hord) (min_le_right _ _)
  · have hx : lo + p.step ≤
        Min.min p.max (Max.max (parsedOr parsed p.max) (lo + p.step)) :=
      le_min (by linarith) (le_max_right _ _)
    linarith
  · exact max_le h2 (le_trans (min_le_right _ _) h1)
  · exact le_min h2 (le_trans (by linarith) (le_max_right _ _))

/-- Witness for C9 with min = 0, max = 100, step = 1, pair (20, 50), slider
value 7 and committed text 200. -/
theorem rangeSlider_handlers_preserve_witness :
    ((handleMinSlider ⟨0, 100, 1⟩ (20, 50) 7).1 ≤
      (handleMinSlider ⟨0, 100, 1⟩ (20, 50) 7).2 - 1) ∧
    ((handleMaxSlider ⟨0, 100, 1⟩ (20, 50) 7).1 ≤
      (handleMaxSlider ⟨0, 100, 1⟩ (20, 50) 7).2 - 1) ∧
    ((commitMinInput ⟨0, 100, 1⟩ (20, 50) (some 200)).1 ≤
      (commitMinInput ⟨0, 100, 1⟩ (20, 50) (some 200)).2 - 1) ∧
    ((commitMaxInput ⟨0, 100, 1⟩ (20, 50) (some 200)).1 ≤
      (commitMaxInput ⟨0, 100, 1⟩ (20, 50) (some 200)).2 - 1) ∧
    ((0 : ℚ) ≤ (commitMinInput ⟨0, 100, 1⟩ (20, 50) (some 200)).1 ∧
      (commitMinInput ⟨0, 100, 1⟩ (20, 50) (some 200)).1 ≤ 100) ∧
    ((0 : ℚ) ≤ (commitMaxInput ⟨0, 100, 1⟩ (20, 50) (some 200)).2 ∧
      (commitMaxInput ⟨0, 100, 1⟩ (20, 50) (some 200)).2 ≤ 100) :=
  rangeSlider_handlers_preserve ⟨0, 100, 1⟩ 20 50 7 (some 200)
    (by norm_num) (by norm_num) (by norm_num) (by norm_num)

theorem weightedAvg_bounds (l : List (ℚ × ℚ))
    (h : ∀ x ∈ l, 0 ≤ x.1 ∧ 0 ≤ x.2 ∧ x.2 ≤ 100) :
    0 ≤ weightedAvg l ∧ weightedAvg l ≤ 100 := by
  unfold weightedAvg
  have hw : 0 ≤ (l.map (·.1)).sum := by
    apply List.sum_nonneg
    intro y hy
    rcases List.mem_map.1 hy with ⟨x, hx, rfl⟩
    exact (h x hx).1
  split_ifs with h0
  · norm_num
  · have hwpos : 0 < (l.map (·.1)).sum := lt_of_le_of_ne hw (Ne.symm h0)
    have hnum0 : 0 ≤ (l.map (fun x => x.1 * x.2)).sum := by
      apply List.sum_nonneg
      intro y hy
      rcases List.mem_map.1 hy with ⟨x, hx, rfl⟩
      exact mul_nonneg (h x hx).1 (h x hx).2.1
    have hnum100 : (l.map (fun x => x.1 * x.2)).sum ≤ 100 * (l.map (·.1)).sum := by
      have hle : (l.map (fun x => x.1 * x.2)).sum ≤ (l.map (fun x => x.1 * 100)).sum :=
        List.sum_le_sum (fun x hx => mul_le_mul_of_nonneg_left (h x hx).2.2 (h x hx).1)
      have heq : (l.map (fun x => x.1 * 100)).sum = (l.map (·.1)).sum * 100 :=
        List.sum_map_mul_right l (·.1) 100
      rw [heq] at hle
      linarith
    refine ⟨div_nonneg hnum0 hw, ?_⟩
    rw [div_le_iff₀ hwpos]
    linarith

theorem availableIndicators_bounds (inst : NormalizedInstitution)
    (hr : ∀ r, inst.retention_rate = some r → 0 ≤ r ∧ r ≤ 1)
    (hc : ∀ c, inst.completion_rate = some c → 0 ≤ c ∧ c ≤ 1)
    (hp : ∀ q, inst.pell_share = some q → 0 ≤ q ∧ q ≤ 1) :
    ∀ x ∈ availableIndicators defaultWeights inst,
      0 ≤ x.1 ∧ 0 ≤ x.2 ∧ x.2 ≤ 100 := by
  intro x hx
  unfold availableIndicators at hx
  simp only [List.mem_append] at hx
  rcases hx with ((hx | hx) | hx) | hx
  · cases hret : inst.retention_rate with
    | none =>
      rw [hret] at hx
      simp at hx
    | some r =>
      rw [hret] at hx
      simp at hx
      subst hx
      have hrb := hr r hret
      refine ⟨by norm_num [defaultWeights], ?_, ?_⟩
      · show (0 : ℚ) ≤ (1 - r) * 100
        nlinarith [hrb.1, hrb.2]
      · show (1 - r) * 100 ≤ 100
        nlinarith [hrb.1, hrb.2]
  · cases hcom : inst.completion_rate with
    | none =>
      rw [hcom] at hx
      simp at hx
    | some c =>
      rw [hcom] at hx
      simp at hx
      subst hx
      have hcb := hc c hcom
      refine ⟨by norm_num [defaultWeights], ?_, ?_⟩
      · show (0 : ℚ) ≤ (1 - c) * 100
        nlinarith [hcb.1, hcb.2]
      · show (1 - c) * 100 ≤ 100
        nlinarith [hcb.1, hcb.2]
  · cases hpel : inst.pell_share with
    | none =>
      rw [hpel] at hx
      simp at hx
    | some q =>
      rw [hpel] at hx
      simp at hx
      subst hx
      have hqb := hp q hpel
      refine ⟨by norm_num [defaultWeights], ?_, ?_⟩
      · show (0 : ℚ) ≤ q * 100
        nlinarith [hqb.1, hqb.2]
      · show q * 100 ≤ 100
        nlinarith [hqb.1, hqb.2]
  · cases hva : inst.valueAdd with
    | none =>
      rw [hva] at hx
      simp at hx
    | some v =>
      rw [hva] at hx
      simp at hx
      subst hx
      refine ⟨by norm_num [defaultWeights], ?_, ?_⟩
      · exact le_min (by norm_num) (le_max_left 0 (100 / v))
      · exact min_le_left _ _

/-- C5: for every institution whose present rate fields lie in [0,1], the
integer RiskScore index produced by the spec-modelled scoring operation lies
in the closed interval [0, 100]. -/
theorem riskScore_index_bounds (inst : NormalizedInstitution)
    (hr : ∀ r, inst.retention_rate = some r → 0 ≤ r ∧ r ≤ 1)
    (hc : ∀ c, inst.completion_rate = some c → 0 ≤ c ∧ c ≤ 1)
    (hp : ∀ q, inst.pell_share = some q → 0 ≤ q ∧ q ≤ 1) :
    0 ≤ (score inst).index ∧ (score inst).index ≤ 100 := by
  have hb := weightedAvg_bounds _ (availableIndicators_bounds inst hr hc hp)
  have hidx : (score inst).index = round (rawIndex defaultWeights inst) := rfl
  rw [hidx]
  unfold rawIndex
  constructor
  · rw [round_eq]
    exact Int.le_floor.2 (by push_cast; linarith [hb.1])
  · rw [round_eq]
    calc ⌊weightedAvg (availableIndicators defaultWeights inst) + 1 / 2⌋
        ≤ ⌊(100 : ℚ) + 1 / 2⌋ := Int.floor_mono (by linarith [hb.2])
      _ = 100 := by norm_num [Int.floor_eq_iff]

/-- Witness for C5 at an institution with retention 0.7, completion 0.4, Pell
share 0.5 and value-add 2. -/
theorem riskScore_index_bounds_witness :
    0 ≤ (score ⟨1, some (7 / 10), some (2 / 5), some (1 / 2), some 2⟩).index ∧
    (score ⟨1, some (7 / 10), some (2 / 5), some (1 / 2), some 2⟩).index ≤ 100 :=
  riskScore_index_bounds ⟨1, some (7 / 10), some (2 / 5), some (1 / 2), some 2⟩
    (fun r h => by cases h; norm_num)
    (fun c h => by cases h; norm_num)
    (fun q h => by cases h; norm_num)

end HackNY
